import Mathlib

/-!
Verification of the posting normalization and ranking pipeline of
daily-job-digest (src/daily_job_digest.py).

The Python core is shallowly embedded below:
* strings are Lean `String`s processed as `List Char`;
* `datetime` instants are modelled as integer epoch seconds (`Int`),
  a timedelta of `h` hours is `h * 3600` seconds, a day `86400`, a week `604800`;
* Python's unbounded `int` is `Int` (counts are `Nat`);
* `re.search` / `re.findall(...)[0]` over the five fixed experience patterns and
  the four time patterns is implemented by a backtracking matcher
  (list-of-successes, alternatives ordered exactly as Python's regex engine
  tries them: greedy quantifiers longest-first, alternation left-first,
  leftmost start position wins);
* in-place mutation of `JobListing` objects becomes explicit record update,
  functions that mutate their argument return the updated record.

Python's `\d` and `\s` are modelled by their ASCII meaning (`Char.isDigit`
and the six ASCII whitespace characters); Python additionally accepts some
further Unicode characters there, which no property below depends on.
-/

/-- Python string containment test: `needle in hay` (substring). -/
def isPrefixL : List Char → List Char → Bool
  | [], _ => true
  | _ :: _, [] => false
  | c :: ns, h :: hs => c == h && isPrefixL ns hs

/-- Substring scan used for Python `needle in hay`. -/
def substrAt (needle : List Char) : List Char → Bool
  | [] => isPrefixL needle []
  | h :: hs => isPrefixL needle (h :: hs) || substrAt needle hs

/-- Python `needle in hay` on strings. -/
def pyContains (hay needle : String) : Bool :=
  substrAt needle.toList hay.toList

/-- The six ASCII characters matched by Python's regex `\s`. -/
def isPySpace (c : Char) : Bool :=
  c == ' ' || c == '\t' || c == '\n' || c == '\r' || c == '\x0b' || c == '\x0c'

/-- Python `str.lower()` (ASCII case mapping, character by character). -/
def pyLower (s : String) : String :=
  ⟨s.toList.map Char.toLower⟩

/-- Python `str.strip()`: drop leading and trailing whitespace. -/
def pyStrip (s : String) : String :=
  ⟨((s.toList.dropWhile isPySpace).reverse.dropWhile isPySpace).reverse⟩

/-- Python `str.title()`: upper-case every cased character that follows a
non-cased character, lower-case the other cased characters (ASCII letters). -/
def pyTitleGo : Bool → List Char → List Char
  | _, [] => []
  | prevAlpha, c :: cs =>
    (if c.isAlpha then (if prevAlpha then c.toLower else c.toUpper) else c) ::
      pyTitleGo c.isAlpha cs

/-- Python `str.title()` on a string. -/
def pyTitle (s : String) : String :=
  ⟨pyTitleGo false s.toList⟩

/-- Value of a digit string, as produced by Python `int` on a `(\d+)` capture. -/
def digitsToNat (ds : List Char) : Nat :=
  ds.foldl (fun a c => a * 10 + (c.toNat - 48)) 0

/-- A backtracking matcher: input suffix to the list of (value, rest) successes,
ordered the way Python's regex engine tries alternatives. -/
abbrev Pat (α : Type) := List Char → List (α × List Char)

/-- Succeed without consuming input. -/
def pPure {α : Type} (a : α) : Pat α := fun s => [(a, s)]

/-- Sequencing of matchers: all continuations of all successes, in order. -/
def pBind {α β : Type} (p : Pat α) (f : α → Pat β) : Pat β :=
  fun s => ((p s).map (fun r => f r.1 r.2)).flatten

/-- Regex alternation: left alternative's successes first. -/
def pAlt {α : Type} (p q : Pat α) : Pat α := fun s => p s ++ q s

/-- Literal token. -/
def pLit (lit : List Char) : Pat Unit := fun s =>
  if isPrefixL lit s then [((), s.drop lit.length)] else []

/-- Greedy optional group `(?:...)?` for a Unit matcher: with-first, then without. -/
def pOptU (p : Pat Unit) : Pat Unit := pAlt p (pPure ())

/-- Greedy `(\d+)` capture: alternatives are the non-empty digit prefixes,
longest first, valued by `int` of the digits. -/
def pDigits : Pat Nat := fun s =>
  let ds := s.takeWhile Char.isDigit
  let rest := s.dropWhile Char.isDigit
  (List.range ds.length).map (fun i =>
    (digitsToNat (ds.take (ds.length - i)), ds.drop (ds.length - i) ++ rest))

/-- Greedy `\s*`: alternatives consume the whitespace run, longest first. -/
def pSpaces : Pat Unit := fun s =>
  let n := (s.takeWhile isPySpace).length
  (List.range (n + 1)).map (fun i => ((), s.drop (n - i)))

/-- The character class `[-–]` of the range pattern. -/
def pHyphenChar : Pat Unit := fun s =>
  match s with
  | c :: rest => if c == '-' || c == '–' then [((), rest)] else []
  | [] => []

/-- Common tail `years?\s*(?:of\s*)?(?:experience|exp)` of the numeric patterns. -/
def pTailExp : Pat Unit :=
  pBind (pLit "year".toList) fun _ =>
  pBind (pOptU (pLit "s".toList)) fun _ =>
  pBind pSpaces fun _ =>
  pBind (pOptU (pBind (pLit "of".toList) fun _ => pSpaces)) fun _ =>
  pAlt (pLit "experience".toList) (pLit "exp".toList)

/-- Pattern 0: `(\d+)[-–]\s*(\d+)\s*years?\s*(?:of\s*)?(?:experience|exp)`. -/
def pRangeHyphen : Pat (Nat × Nat) :=
  pBind pDigits fun n =>
  pBind pHyphenChar fun _ =>
  pBind pSpaces fun _ =>
  pBind pDigits fun m =>
  pBind pSpaces fun _ =>
  pBind pTailExp fun _ => pPure (n, m)

/-- Pattern 1: `(\d+)\+\s*years?\s*(?:of\s*)?(?:experience|exp)`. -/
def pPlusYears : Pat Nat :=
  pBind pDigits fun n =>
  pBind (pLit "+".toList) fun _ =>
  pBind pSpaces fun _ =>
  pBind pTailExp fun _ => pPure n

/-- The alternation `(?:minimum|min|at\s*least)`. -/
def pMinWord : Pat Unit :=
  pAlt (pLit "minimum".toList)
    (pAlt (pLit "min".toList)
      (pBind (pLit "at".toList) fun _ => pBind pSpaces fun _ => pLit "least".toList))

/-- Pattern 2: `(?:minimum|min|at\s*least)\s*(\d+)\s*years?\s*(?:of\s*)?(?:experience|exp)`. -/
def pMinYears : Pat Nat :=
  pBind pMinWord fun _ =>
  pBind pSpaces fun _ =>
  pBind pDigits fun n =>
  pBind pSpaces fun _ =>
  pBind pTailExp fun _ => pPure n

/-- Pattern 3: `(\d+)\s*years?\s*(?:of\s*)?(?:experience|exp)`. -/
def pBareYears : Pat Nat :=
  pBind pDigits fun n =>
  pBind pSpaces fun _ =>
  pBind pTailExp fun _ => pPure n

/-- Pattern 4: `(\d+)\s*to\s*(\d+)\s*years?\s*(?:of\s*)?(?:experience|exp)`. -/
def pToYears : Pat (Nat × Nat) :=
  pBind pDigits fun n =>
  pBind pSpaces fun _ =>
  pBind (pLit "to".toList) fun _ =>
  pBind pSpaces fun _ =>
  pBind pDigits fun m =>
  pBind pSpaces fun _ =>
  pBind pTailExp fun _ => pPure (n, m)

/-- The time patterns `(\d+)\s*hour` and friends of `parse_posting_time`. -/
def pNumBefore (word : List Char) : Pat Nat :=
  pBind pDigits fun n =>
  pBind pSpaces fun _ =>
  pBind (pLit word) fun _ => pPure n

/-- Leftmost-match search, as `re.search` / `re.findall(...)[0]`: start positions
left to right, at each position the matcher's first success wins. -/
def searchPat {α : Type} (p : Pat α) : List Char → Option α
  | [] =>
    match p [] with
    | (a, _) :: _ => some a
    | [] => none
  | c :: rest =>
    match p (c :: rest) with
    | (a, _) :: _ => some a
    | [] => searchPat p rest

/-- The `JobListing` dataclass (fields used by the core pipeline; the two
resume-customization fields are I/O plumbing and carry no logic). -/
structure JobListing where
  source : String
  title : String
  company : String
  location : String
  posted : String
  link : String
  description : String := ""
  skills_found : List String := []
  skill_score : Nat := 0
  posting_time : Option Int := none
  search_query : String := ""
  experience_required : String := ""
  experience_years_min : Option Int := none
  experience_years_max : Option Int := none
  experience_match_score : Int := 0
  deriving DecidableEq

/-- The `JobFilter` configuration, modelling the stored (already stripped and
lower-cased) fields set by `JobFilter.__init__` together with the module-level
`INCLUDE_UNKNOWN_EXPERIENCE` flag (which `main` wires to the same value as the
constructor argument). -/
structure JobFilterConfig where
  preferred_skills : List String
  min_skill_score : Int
  min_experience_years : Int
  max_experience_years : Int
  exclude_experience_keywords : List String
  include_unknown_experience : Bool
  deriving DecidableEq

/-- `ExperienceParser.level_mappings`, in dict insertion order. -/
def level_mappings : List (String × Int × Int) :=
  [("fresher", 0, 1), ("graduate", 0, 2), ("entry level", 0, 2),
   ("junior", 0, 3), ("mid level", 2, 8), ("intermediate", 3, 8),
   ("senior", 5, 15), ("lead", 7, 20), ("principal", 8, 20)]

/-- The `no_exp_indicators` list of `parse_experience_requirements`. -/
def no_exp_indicators : List String :=
  ["no experience", "fresher", "0 years", "entry level"]

/-- `ExperienceParser.parse_experience_requirements`: scan the five numeric
patterns in list order taking the first one whose `findall` is non-empty, then
the level mapping by substring containment, then the no-experience indicators;
default `("", None, None)`. -/
def parse_experience_requirements (job_text : String) :
    String × Option Int × Option Int :=
  let t := (pyLower job_text).toList
  match searchPat pRangeHyphen t with
  | some (n, m) =>
      (toString n ++ "-" ++ toString m ++ " years", some (n : Int), some (m : Int))
  | none =>
  match searchPat pPlusYears t with
  | some n => (toString n ++ "+ years", some (n : Int), none)
  | none =>
  match searchPat pMinYears t with
  | some n => (toString n ++ "+ years", some (n : Int), none)
  | none =>
  match searchPat pBareYears t with
  | some n => (toString n ++ "+ years", some (n : Int), none)
  | none =>
  match searchPat pToYears t with
  | some (n, m) =>
      (toString n ++ "-" ++ toString m ++ " years", some (n : Int), some (m : Int))
  | none =>
  match level_mappings.find? (fun lm => substrAt lm.1.toList t) with
  | some lm => (pyTitle lm.1, some lm.2.1, some lm.2.2)
  | none =>
  match no_exp_indicators.find? (fun ind => substrAt ind.toList t) with
  | some ind => (pyTitle ind, some 0, some 2)
  | none => ("", none, none)

/-- `ExperienceParser.calculate_experience_match_score`.  The float expression
`int(overlap_ratio * 10)` is modelled by exact integer arithmetic
(`overlap_range * 10 / min_range`, all quantities positive in that branch);
the global `INCLUDE_UNKNOWN_EXPERIENCE` it reads is the `include_unknown`
parameter. -/
def calculate_experience_match_score (include_unknown : Bool)
    (job_min job_max : Option Int) (filter_min filter_max : Int) : Int :=
  if job_min.isNone && job_max.isNone then
    if include_unknown then 5 else 0
  else
    let jmin := job_min.getD 0
    let jmax := job_max.getD (jmin + 5)
    let overlap_start := max jmin filter_min
    let overlap_end := min jmax filter_max
    if overlap_start ≤ overlap_end then
      let job_range := jmax - jmin + 1
      let filter_range := filter_max - filter_min + 1
      let overlap_range := overlap_end - overlap_start + 1
      overlap_range * 10 / min job_range filter_range
    else
      let distance := min (jmin - filter_max).natAbs (filter_min - jmax).natAbs
      if distance ≤ 2 then 3 else 0

/-- `JobFilter.parse_posting_time` with `datetime.now()` passed in as `now`.
Return type is `Option Int`, mirroring the declared `Optional[datetime]`;
every return statement of the Python body produces a value.  The
`OverflowError` a huge `timedelta` can raise is swallowed by the bare
`except` and also yields `now`; with unbounded `Int` offsets that exceptional
path does not arise in the model. -/
def parse_posting_time (posted_text : String) (now : Int) : Option Int :=
  let t := (pyStrip (pyLower posted_text)).toList
  if substrAt "just".toList t || substrAt "now".toList t then some now
  else if substrAt "hour".toList t then
    match searchPat (pNumBefore "hour".toList) t with
    | some h => some (now - (h : Int) * 3600)
    | none => some now
  else if substrAt "day".toList t then
    match searchPat (pNumBefore "day".toList) t with
    | some d => some (now - (d : Int) * 86400)
    | none => some now
  else if substrAt "week".toList t then
    match searchPat (pNumBefore "week".toList) t with
    | some w => some (now - (w : Int) * 604800)
    | none => some now
  else if substrAt "month".toList t then
    match searchPat (pNumBefore "month".toList) t with
    | some m => some (now - (m : Int) * 30 * 86400)
    | none => some now
  else some now

/-- `JobFilter.extract_skills`: preferred skills found in the lower-cased
title-and-description text, in vocabulary order, with their count. -/
def extract_skills (cfg : JobFilterConfig) (job : JobListing) :
    List String × Nat :=
  let job_text := pyLower (job.title ++ " " ++ job.description)
  let found := cfg.preferred_skills.filter (fun s => pyContains job_text s)
  (found, found.length)

/-- The preferred-skill score recomputed inside `matches_requirements`
(`sum(skill in job_text for skill in self.preferred_skills)`). -/
def preferred_skill_score (cfg : JobFilterConfig) (job : JobListing) : Nat :=
  (cfg.preferred_skills.filter
    (fun s => pyContains (pyLower (job.title ++ " " ++ job.description)) s)).length

/-- The text scanned for excluded experience keywords. -/
def experience_gate_text (job : JobListing) : String :=
  pyLower (job.title ++ " " ++ job.description ++ " " ++ job.experience_required)

/-- Update of the `experience_match_score` field (the one in-place write
performed by `check_experience_requirements`). -/
def setScore (job : JobListing) (s : Int) : JobListing :=
  { job with experience_match_score := s }

/-- The score `check_experience_requirements` stores:
`calculate_experience_match_score` on the job's parsed bounds and the filter's
configured range. -/
def expScoreOf (cfg : JobFilterConfig) (job : JobListing) : Int :=
  calculate_experience_match_score cfg.include_unknown_experience
    job.experience_years_min job.experience_years_max
    cfg.min_experience_years cfg.max_experience_years

/-- `JobFilter.check_experience_requirements`, returning the verdict together
with the (possibly score-updated) job record. -/
def check_experience_requirements (cfg : JobFilterConfig) (job : JobListing) :
    Bool × JobListing :=
  if job.experience_years_min.isNone && job.experience_years_max.isNone then
    (cfg.include_unknown_experience, job)
  else if cfg.exclude_experience_keywords.any
      (fun kw => pyContains (experience_gate_text job) kw) then
    (false, job)
  else
    (decide (expScoreOf cfg job > 0) ||
      (job.experience_years_min.isNone && job.experience_years_max.isNone &&
        cfg.include_unknown_experience),
     setScore job (expScoreOf cfg job))

/-- The title fallback keywords of `matches_requirements`. -/
def title_ml_keywords : List String := ["ml", "machine learning", "ai"]

/-- `JobFilter.matches_requirements`: experience gate first (early return on
failure), then the preferred-skill threshold, then the ML/AI title fallback
that can only flip a failed skill check. -/
def matches_requirements (cfg : JobFilterConfig) (job : JobListing) :
    Bool × JobListing :=
  let res := check_experience_requirements cfg job
  if !res.1 then (false, res.2)
  else
    let skill_score := preferred_skill_score cfg job
    let passes0 : Bool := !decide ((skill_score : Int) < cfg.min_skill_score)
    let passes :=
      if !passes0 &&
          title_ml_keywords.any (fun kw => pyContains (pyLower job.title) kw) then
        true
      else passes0
    (passes, res.2)

/-- Python falsiness of an `Optional[int]`: `None` and `0` are falsy. -/
def optFalsy : Option Int → Bool
  | none => true
  | some v => v == 0

/-- First enrichment write of `filter_and_score_jobs`:
`job.posting_time = self.parse_posting_time(job.posted)`. -/
def withTime (now : Int) (job : JobListing) : JobListing :=
  { job with posting_time := parse_posting_time job.posted now }

/-- Second enrichment write:
`job.skills_found, job.skill_score = self.extract_skills(job)`. -/
def withSkills (cfg : JobFilterConfig) (job : JobListing) : JobListing :=
  { job with skills_found := (extract_skills cfg job).1,
             skill_score := (extract_skills cfg job).2 }

/-- Write of the three experience fields from a parse result. -/
def setExp (job : JobListing) (r : String × Option Int × Option Int) :
    JobListing :=
  { job with experience_required := r.1,
             experience_years_min := r.2.1,
             experience_years_max := r.2.2 }

/-- Third enrichment step: parse experience only when
`not job.experience_required and not job.experience_years_min` (Python
falsiness, so a present minimum of `0` also triggers re-parsing). -/
def enrichExp (job : JobListing) : JobListing :=
  if job.experience_required == "" && optFalsy job.experience_years_min then
    setExp job (parse_experience_requirements (job.title ++ " " ++ job.description))
  else job

/-- The per-posting enrichment performed by the loop of
`filter_and_score_jobs`, in statement order. -/
def enrichJob (cfg : JobFilterConfig) (now : Int) (job : JobListing) :
    JobListing :=
  enrichExp (withSkills cfg (withTime now job))

/-- One loop iteration of `filter_and_score_jobs`: enrich the posting in place,
then evaluate `matches_requirements` on it. -/
def processJob (cfg : JobFilterConfig) (now : Int) (job : JobListing) :
    Bool × JobListing :=
  matches_requirements cfg (enrichJob cfg now job)

/-- The minimum instant `datetime.min` used as sort fallback
(midnight of year 1, as epoch seconds). -/
def datetimeMin : Int := -62135596800

/-- The composite sort key
`(-experience_match_score, -skill_score, posting_time or datetime.min)`. -/
def sortKey (job : JobListing) : Int × Int × Int :=
  (-job.experience_match_score, -(job.skill_score : Int),
   job.posting_time.getD datetimeMin)

/-- Lexicographic comparison of sort keys (Python tuple order). -/
def keyLe (a b : Int × Int × Int) : Bool :=
  decide (a.1 < b.1) ||
    (decide (a.1 = b.1) &&
      (decide (a.2.1 < b.2.1) ||
        (decide (a.2.1 = b.2.1) && decide (a.2.2 ≤ b.2.2))))

/-- Job comparison used by the final `list.sort`. -/
def jobLe (a b : JobListing) : Bool := keyLe (sortKey a) (sortKey b)

/-- Stable insertion into a sorted accumulator: the new element goes after
every element that compares less-or-equal to it. -/
def insertSorted {α : Type} (le : α → α → Bool) (x : α) : List α → List α
  | [] => [x]
  | y :: ys => if le y x then y :: insertSorted le x ys else x :: y :: ys

/-- A stable sort (elements with equal keys keep first-seen order), modelling
Python's stable `list.sort`. -/
def stableSort {α : Type} (le : α → α → Bool) (l : List α) : List α :=
  l.foldl (fun acc x => insertSorted le x acc) []

/-- `JobFilter.filter_and_score_jobs`.  The first component is the returned
filtered and sorted list; the second is the full input batch after its
in-place enrichment (the Python function mutates the records of the list it
was given, so this state is observable by the caller). -/
def filter_and_score_jobs (cfg : JobFilterConfig) (now : Int)
    (jobs : List JobListing) : List JobListing × List JobListing :=
  let processed := jobs.map (processJob cfg now)
  (stableSort jobLe ((processed.filter (fun p => p.1)).map (fun p => p.2)),
   processed.map (fun p => p.2))

/-- The URL-keyed duplicate removal loop of
`WebSearchScraper.search_jobs_via_web`; `seen` models the `seen_urls` set. -/
def dedupeAux (seen : List String) : List JobListing → List JobListing
  | [] => []
  | j :: rest =>
    if seen.contains j.link then dedupeAux seen rest
    else j :: dedupeAux (j.link :: seen) rest

/-- The deduplication stage applied to the web-search jobs. -/
def dedupe_jobs (jobs : List JobListing) : List JobListing :=
  dedupeAux [] jobs

/-- The pre-filter batch assembled by `main`: Indeed jobs, then LinkedIn jobs,
then the web-search jobs (the only ones that went through deduplication),
concatenated without any further duplicate removal. -/
def main_gather (indeed_jobs linkedin_jobs web_raw : List JobListing) :
    List JobListing :=
  indeed_jobs ++ linkedin_jobs ++ dedupe_jobs web_raw

/-- Python integer division as used via `int(a / b * 10)`: raises
`ZeroDivisionError` on a zero divisor (modelled in `Except`), otherwise the
truncated quotient (all uses below have positive operands, where truncation,
floor and float rounding agree on the stated bounds). -/
def pyDivE (a b : Int) : Except String Int :=
  if b == 0 then .error "ZeroDivisionError" else .ok (a / b)

/-- Exception-explicit variant of `calculate_experience_match_score`: the only
partial operation of the body, the division by
`min(job_range, filter_range)`, is threaded through `Except`. -/
def calculate_experience_match_scoreE (include_unknown : Bool)
    (job_min job_max : Option Int) (filter_min filter_max : Int) :
    Except String Int :=
  if job_min.isNone && job_max.isNone then
    .ok (if include_unknown then 5 else 0)
  else
    let jmin := job_min.getD 0
    let jmax := job_max.getD (jmin + 5)
    if max jmin filter_min ≤ min jmax filter_max then
      pyDivE ((min jmax filter_max - max jmin filter_min + 1) * 10)
        (min (jmax - jmin + 1) (filter_max - filter_min + 1))
    else if min (jmin - filter_max).natAbs (filter_min - jmax).natAbs ≤ 2 then
      .ok 3
    else .ok 0

/-- A `timedelta` construction or `datetime` subtraction, which can raise
`OverflowError` for offsets outside the representable range; `ov` is an
arbitrary oracle saying which offsets overflow, so the totality theorem holds
for every possible overflow behaviour. -/
def timedeltaE (ov : Int → Bool) (secs : Int) : Except String Int :=
  if ov secs then .error "OverflowError" else .ok secs

/-- Exception-explicit variant of `parse_posting_time`: the body of the `try`
block may raise through `timedeltaE`; the bare `except: pass` turns any such
error into the trailing `return now`. -/
def parse_posting_timeE (ov : Int → Bool) (posted_text : String) (now : Int) :
    Except String (Option Int) :=
  let t := (pyStrip (pyLower posted_text)).toList
  let body : Except String (Option Int) :=
    if substrAt "just".toList t || substrAt "now".toList t then .ok (some now)
    else if substrAt "hour".toList t then
      match searchPat (pNumBefore "hour".toList) t with
      | some h =>
        match timedeltaE ov ((h : Int) * 3600) with
        | .ok d => .ok (some (now - d))
        | .error e => .error e
      | none => .ok none
    else if substrAt "day".toList t then
      match searchPat (pNumBefore "day".toList) t with
      | some d =>
        match timedeltaE ov ((d : Int) * 86400) with
        | .ok dd => .ok (some (now - dd))
        | .error e => .error e
      | none => .ok none
    else if substrAt "week".toList t then
      match searchPat (pNumBefore "week".toList) t with
      | some w =>
        match timedeltaE ov ((w : Int) * 604800) with
        | .ok dd => .ok (some (now - dd))
        | .error e => .error e
      | none => .ok none
    else if substrAt "month".toList t then
      match searchPat (pNumBefore "month".toList) t with
      | some m =>
        match timedeltaE ov ((m : Int) * 30 * 86400) with
        | .ok dd => .ok (some (now - dd))
        | .error e => .error e
      | none => .ok none
    else .ok none
  match body with
  | .ok (some r) => .ok (some r)
  | .ok none => .ok (some now)
  | .error _ => .ok (some now)

/-- Exception-explicit `check_experience_requirements`. -/
def check_experience_requirementsE (cfg : JobFilterConfig) (job : JobListing) :
    Except String (Bool × JobListing) :=
  if job.experience_years_min.isNone && job.experience_years_max.isNone then
    .ok (cfg.include_unknown_experience, job)
  else if cfg.exclude_experience_keywords.any
      (fun kw => pyContains (experience_gate_text job) kw) then
    .ok (false, job)
  else
    match calculate_experience_match_scoreE cfg.include_unknown_experience
      job.experience_years_min job.experience_years_max
      cfg.min_experience_years cfg.max_experience_years with
    | .ok s =>
      .ok (decide (s > 0) ||
        (job.experience_years_min.isNone && job.experience_years_max.isNone &&
          cfg.include_unknown_experience),
       setScore job s)
    | .error e => .error e

/-- Exception-explicit `matches_requirements`. -/
def matches_requirementsE (cfg : JobFilterConfig) (job : JobListing) :
    Except String (Bool × JobListing) :=
  match check_experience_requirementsE cfg job with
  | .error e => .error e
  | .ok res =>
    if !res.1 then .ok (false, res.2)
    else
      let skill_score := preferred_skill_score cfg job
      let passes0 : Bool := !decide ((skill_score : Int) < cfg.min_skill_score)
      let passes :=
        if !passes0 &&
            title_ml_keywords.any (fun kw => pyContains (pyLower job.title) kw) then
          true
        else passes0
      .ok (passes, res.2)

/-- Exception-explicit per-posting step of `filter_and_score_jobs` (the skill
extraction and experience parsing contain no partial operation: the `int`
conversions are applied to `(\d+)` captures, which are non-empty digit
strings, so they are embedded as total functions). -/
def processJobE (ov : Int → Bool) (cfg : JobFilterConfig) (now : Int)
    (job : JobListing) : Except String (Bool × JobListing) :=
  match parse_posting_timeE ov job.posted now with
  | .error e => .error e
  | .ok pt =>
    matches_requirementsE cfg
      (enrichExp (withSkills cfg { job with posting_time := pt }))

/-- Exception-explicit `filter_and_score_jobs`. -/
def filter_and_score_jobsE (ov : Int → Bool) (cfg : JobFilterConfig)
    (now : Int) (jobs : List JobListing) :
    Except String (List JobListing × List JobListing) :=
  match jobs.mapM (processJobE ov cfg now) with
  | .error e => .error e
  | .ok processed =>
    .ok (stableSort jobLe ((processed.filter (fun p => p.1)).map (fun p => p.2)),
      processed.map (fun p => p.2))

/-- All postings of a list carry a posting instant. -/
def allTimesSet (l : List JobListing) : Prop :=
  ∀ j ∈ l, j.posting_time.isSome = true

/-- Every experience-unknown posting of a list has match score zero. -/
def unknownScoreZero (l : List JobListing) : Prop :=
  ∀ j ∈ l, j.experience_years_min = none → j.experience_years_max = none →
    j.experience_match_score = 0

/-- The experience match scores of a list are non-increasing from head to
tail, so a zero-score posting never precedes a positive-score one. -/
def scoreNonincreasing (l : List JobListing) : Prop :=
  l.Pairwise (fun a b => b.experience_match_score ≤ a.experience_match_score)

/-- A configuration like the shipped defaults (lower-cased stored fields). -/
def cfgDefault : JobFilterConfig :=
  { preferred_skills := ["python", "machine learning"]
    min_skill_score := 1
    min_experience_years := 0
    max_experience_years := 20
    exclude_experience_keywords := []
    include_unknown_experience := true }

/-- A configuration with a zero skill threshold that excludes
unknown-experience postings. -/
def cfgZeroSkill : JobFilterConfig :=
  { cfgDefault with min_skill_score := 0, include_unknown_experience := false }

/-- An Indeed posting, as handed over by the scraper (raw fields only). -/
def jobDupIndeed : JobListing :=
  { source := "Indeed", title := "ML Engineer", company := "Acme"
    location := "Remote", posted := "2 hours ago"
    link := "https://jobs.example.com/a" }

/-- A LinkedIn posting with the same non-empty link as `jobDupIndeed`. -/
def jobDupLinkedIn : JobListing :=
  { source := "LinkedIn", title := "Data Scientist", company := "Beta"
    location := "Remote", posted := "1 day ago"
    link := "https://jobs.example.com/a" }

/-- A posting whose link is the empty string. -/
def jobEmptyLinkA : JobListing :=
  { source := "Indeed", title := "Analyst", company := "Acme"
    location := "Remote", posted := "just posted", link := "" }

/-- A second, distinct posting whose link is also empty. -/
def jobEmptyLinkB : JobListing :=
  { source := "Shine", title := "Writer", company := "Beta"
    location := "Remote", posted := "just posted", link := "" }

/-- A raw posting whose text yields no experience requirement. -/
def jobUnknownExp : JobListing :=
  { source := "Indeed", title := "ML Engineer", company := "Acme"
    location := "Remote", posted := "just posted", link := "l1" }

/-- A raw posting whose title contains the level keyword "senior". -/
def jobSeniorTitle : JobListing :=
  { source := "Indeed", title := "Senior ML Engineer", company := "Acme"
    location := "Remote", posted := "2 hours ago", link := "l2" }

/-! Helper lemmas: record-update projections. -/

@[simp] theorem setScore_title (j : JobListing) (s : Int) :
    (setScore j s).title = j.title := rfl

@[simp] theorem setScore_description (j : JobListing) (s : Int) :
    (setScore j s).description = j.description := rfl

@[simp] theorem setScore_posted (j : JobListing) (s : Int) :
    (setScore j s).posted = j.posted := rfl

@[simp] theorem setScore_posting_time (j : JobListing) (s : Int) :
    (setScore j s).posting_time = j.posting_time := rfl

@[simp] theorem setScore_experience_required (j : JobListing) (s : Int) :
    (setScore j s).experience_required = j.experience_required := rfl

@[simp] theorem setScore_experience_years_min (j : JobListing) (s : Int) :
    (setScore j s).experience_years_min = j.experience_years_min := rfl

@[simp] theorem setScore_experience_years_max (j : JobListing) (s : Int) :
    (setScore j s).experience_years_max = j.experience_years_max := rfl

@[simp] theorem setScore_experience_match_score (j : JobListing) (s : Int) :
    (setScore j s).experience_match_score = s := rfl

@[simp] theorem setScore_skills_found (j : JobListing) (s : Int) :
    (setScore j s).skills_found = j.skills_found := rfl

@[simp] theorem setScore_skill_score (j : JobListing) (s : Int) :
    (setScore j s).skill_score = j.skill_score := rfl

@[simp] theorem setScore_setScore (j : JobListing) (s t : Int) :
    setScore (setScore j s) t = setScore j t := rfl

@[simp] theorem withTime_title (now : Int) (j : JobListing) :
    (withTime now j).title = j.title := rfl

@[simp] theorem withTime_description (now : Int) (j : JobListing) :
    (withTime now j).description = j.description := rfl

@[simp] theorem withTime_posted (now : Int) (j : JobListing) :
    (withTime now j).posted = j.posted := rfl

@[simp] theorem withTime_posting_time (now : Int) (j : JobListing) :
    (withTime now j).posting_time = parse_posting_time j.posted now := rfl

@[simp] theorem withTime_experience_required (now : Int) (j : JobListing) :
    (withTime now j).experience_required = j.experience_required := rfl

@[simp] theorem withTime_experience_years_min (now : Int) (j : JobListing) :
    (withTime now j).experience_years_min = j.experience_years_min := rfl

@[simp] theorem withTime_experience_years_max (now : Int) (j : JobListing) :
    (withTime now j).experience_years_max = j.experience_years_max := rfl

@[simp] theorem withTime_experience_match_score (now : Int) (j : JobListing) :
    (withTime now j).experience_match_score = j.experience_match_score := rfl

@[simp] theorem withTime_skills_found (now : Int) (j : JobListing) :
    (withTime now j).skills_found = j.skills_found := rfl

@[simp] theorem withTime_skill_score (now : Int) (j : JobListing) :
    (withTime now j).skill_score = j.skill_score := rfl

@[simp] theorem withSkills_title (cfg : JobFilterConfig) (j : JobListing) :
    (withSkills cfg j).title = j.title := rfl

@[simp] theorem withSkills_description (cfg : JobFilterConfig) (j : JobListing) :
    (withSkills cfg j).description = j.description := rfl

@[simp] theorem withSkills_posted (cfg : JobFilterConfig) (j : JobListing) :
    (withSkills cfg j).posted = j.posted := rfl

@[simp] theorem withSkills_posting_time (cfg : JobFilterConfig) (j : JobListing) :
    (withSkills cfg j).posting_time = j.posting_time := rfl

@[simp] theorem withSkills_experience_required (cfg : JobFilterConfig) (j : JobListing) :
    (withSkills cfg j).experience_required = j.experience_required := rfl

@[simp] theorem withSkills_experience_years_min (cfg : JobFilterConfig) (j : JobListing) :
    (withSkills cfg j).experience_years_min = j.experience_years_min := rfl

@[simp] theorem withSkills_experience_years_max (cfg : JobFilterConfig) (j : JobListing) :
    (withSkills cfg j).experience_years_max = j.experience_years_max := rfl

@[simp] theorem withSkills_experience_match_score (cfg : JobFilterConfig) (j : JobListing) :
    (withSkills cfg j).experience_match_score = j.experience_match_score := rfl

@[simp] theorem withSkills_skills_found (cfg : JobFilterConfig) (j : JobListing) :
    (withSkills cfg j).skills_found = (extract_skills cfg j).1 := rfl

@[simp] theorem withSkills_skill_score (cfg : JobFilterConfig) (j : JobListing) :
    (withSkills cfg j).skill_score = (extract_skills cfg j).2 := rfl

@[simp] theorem setExp_title (j : JobListing) (r : String × Option Int × Option Int) :
    (setExp j r).title = j.title := rfl

@[simp] theorem setExp_description (j : JobListing) (r : String × Option Int × Option Int) :
    (setExp j r).description = j.description := rfl

@[simp] theorem setExp_posted (j : JobListing) (r : String × Option Int × Option Int) :
    (setExp j r).posted = j.posted := rfl

@[simp] theorem setExp_posting_time (j : JobListing) (r : String × Option Int × Option Int) :
    (setExp j r).posting_time = j.posting_time := rfl

@[simp] theorem setExp_experience_required (j : JobListing) (r : String × Option Int × Option Int) :
    (setExp j r).experience_required = r.1 := rfl

@[simp] theorem setExp_experience_years_min (j : JobListing) (r : String × Option Int × Option Int) :
    (setExp j r).experience_years_min = r.2.1 := rfl

@[simp] theorem setExp_experience_years_max (j : JobListing) (r : String × Option Int × Option Int) :
    (setExp j r).experience_years_max = r.2.2 := rfl

@[simp] theorem setExp_experience_match_score (j : JobListing) (r : String × Option Int × Option Int) :
    (setExp j r).experience_match_score = j.experience_match_score := rfl

@[simp] theorem setExp_skills_found (j : JobListing) (r : String × Option Int × Option Int) :
    (setExp j r).skills_found = j.skills_found := rfl

@[simp] theorem setExp_skill_score (j : JobListing) (r : String × Option Int × Option Int) :
    (setExp j r).skill_score = j.skill_score := rfl

@[simp] theorem setExp_setExp (j : JobListing) (r r' : String × Option Int × Option Int) :
    setExp (setExp j r) r' = setExp j r' := rfl

/-! Helper lemmas: behaviour of the enrichment stages. -/

theorem extract_skills_congr (cfg : JobFilterConfig) (j k : JobListing)
    (ht : j.title = k.title) (hd : j.description = k.description) :
    extract_skills cfg j = extract_skills cfg k := by
  unfold extract_skills
  rw [ht, hd]

@[simp] theorem enrichExp_title (j : JobListing) :
    (enrichExp j).title = j.title := by
  unfold enrichExp; split <;> simp

@[simp] theorem enrichExp_description (j : JobListing) :
    (enrichExp j).description = j.description := by
  unfold enrichExp; split <;> simp

@[simp] theorem enrichExp_posted (j : JobListing) :
    (enrichExp j).posted = j.posted := by
  unfold enrichExp; split <;> simp

@[simp] theorem enrichExp_posting_time (j : JobListing) :
    (enrichExp j).posting_time = j.posting_time := by
  unfold enrichExp; split <;> simp

@[simp] theorem enrichExp_experience_match_score (j : JobListing) :
    (enrichExp j).experience_match_score = j.experience_match_score := by
  unfold enrichExp; split <;> simp

@[simp] theorem enrichExp_skills_found (j : JobListing) :
    (enrichExp j).skills_found = j.skills_found := by
  unfold enrichExp; split <;> simp

@[simp] theorem enrichExp_skill_score (j : JobListing) :
    (enrichExp j).skill_score = j.skill_score := by
  unfold enrichExp; split <;> simp

theorem withTime_self (now : Int) (j : JobListing)
    (h : j.posting_time = parse_posting_time j.posted now) :
    withTime now j = j := by
  unfold withTime
  rw [← h]

theorem withSkills_self (cfg : JobFilterConfig) (j : JobListing)
    (h1 : j.skills_found = (extract_skills cfg j).1)
    (h2 : j.skill_score = (extract_skills cfg j).2) :
    withSkills cfg j = j := by
  unfold withSkills
  rw [← h1, ← h2]

theorem enrichExp_idem (j : JobListing) :
    enrichExp (enrichExp j) = enrichExp j := by
  by_cases h : (j.experience_required == "" && optFalsy j.experience_years_min) = true
  · have hj : enrichExp j =
        setExp j (parse_experience_requirements (j.title ++ " " ++ j.description)) := by
      unfold enrichExp; rw [if_pos h]
    rw [hj]
    unfold enrichExp
    split
    · simp
    · rfl
  · have hj : enrichExp j = j := by
      unfold enrichExp; rw [if_neg h]
    rw [hj, hj]

theorem enrichJob_idem (cfg : JobFilterConfig) (now : Int) (j : JobListing) :
    enrichJob cfg now (enrichJob cfg now j) = enrichJob cfg now j := by
  unfold enrichJob
  rw [withTime_self now (enrichExp (withSkills cfg (withTime now j)))
        (by simp),
      withSkills_self cfg (enrichExp (withSkills cfg (withTime now j)))
        (by simp only [enrichExp_skills_found, withSkills_skills_found]
            rw [extract_skills_congr cfg
              (enrichExp (withSkills cfg (withTime now j))) (withTime now j)
              (by simp) (by simp)])
        (by simp only [enrichExp_skill_score, withSkills_skill_score]
            rw [extract_skills_congr cfg
              (enrichExp (withSkills cfg (withTime now j))) (withTime now j)
              (by simp) (by simp)]),
      enrichExp_idem]

theorem enrichJob_setScore_comm (cfg : JobFilterConfig) (now : Int)
    (j : JobListing) (s : Int) :
    enrichJob cfg now (setScore j s) = setScore (enrichJob cfg now j) s := by
  cases j
  unfold enrichJob withTime withSkills enrichExp setExp setScore extract_skills
  simp only
  split <;> rfl

@[simp] theorem enrichJob_title (cfg : JobFilterConfig) (now : Int) (j : JobListing) :
    (enrichJob cfg now j).title = j.title := by
  unfold enrichJob; simp

@[simp] theorem enrichJob_description (cfg : JobFilterConfig) (now : Int) (j : JobListing) :
    (enrichJob cfg now j).description = j.description := by
  unfold enrichJob; simp

@[simp] theorem enrichJob_posted (cfg : JobFilterConfig) (now : Int) (j : JobListing) :
    (enrichJob cfg now j).posted = j.posted := by
  unfold enrichJob; simp

@[simp] theorem enrichJob_posting_time (cfg : JobFilterConfig) (now : Int) (j : JobListing) :
    (enrichJob cfg now j).posting_time = parse_posting_time j.posted now := by
  unfold enrichJob; simp

@[simp] theorem enrichJob_experience_match_score (cfg : JobFilterConfig) (now : Int)
    (j : JobListing) :
    (enrichJob cfg now j).experience_match_score = j.experience_match_score := by
  unfold enrichJob; simp

/-! Helper lemmas: the experience gate and the composite predicate. -/

@[simp] theorem experience_gate_text_setScore (j : JobListing) (s : Int) :
    experience_gate_text (setScore j s) = experience_gate_text j := rfl

@[simp] theorem expScoreOf_setScore (cfg : JobFilterConfig) (j : JobListing) (s : Int) :
    expScoreOf cfg (setScore j s) = expScoreOf cfg j := rfl

theorem check_snd_eq_or (cfg : JobFilterConfig) (j : JobListing) :
    (check_experience_requirements cfg j).2 = j ∨
    (check_experience_requirements cfg j).2 = setScore j (expScoreOf cfg j) := by
  unfold check_experience_requirements
  split
  · exact Or.inl rfl
  · split
    · exact Or.inl rfl
    · exact Or.inr rfl

theorem check_snd_title (cfg : JobFilterConfig) (j : JobListing) :
    ((check_experience_requirements cfg j).2).title = j.title := by
  rcases check_snd_eq_or cfg j with h | h <;> simp [h]

theorem check_snd_description (cfg : JobFilterConfig) (j : JobListing) :
    ((check_experience_requirements cfg j).2).description = j.description := by
  rcases check_snd_eq_or cfg j with h | h <;> simp [h]

theorem check_snd_posting_time (cfg : JobFilterConfig) (j : JobListing) :
    ((check_experience_requirements cfg j).2).posting_time = j.posting_time := by
  rcases check_snd_eq_or cfg j with h | h <;> simp [h]

theorem check_snd_experience_years_min (cfg : JobFilterConfig) (j : JobListing) :
    ((check_experience_requirements cfg j).2).experience_years_min =
      j.experience_years_min := by
  rcases check_snd_eq_or cfg j with h | h <;> simp [h]

theorem check_snd_experience_years_max (cfg : JobFilterConfig) (j : JobListing) :
    ((check_experience_requirements cfg j).2).experience_years_max =
      j.experience_years_max := by
  rcases check_snd_eq_or cfg j with h | h <;> simp [h]

theorem check_unknown (cfg : JobFilterConfig) (j : JobListing)
    (h1 : j.experience_years_min = none) (h2 : j.experience_years_max = none) :
    check_experience_requirements cfg j = (cfg.include_unknown_experience, j) := by
  unfold check_experience_requirements
  rw [h1, h2]
  simp

theorem check_idem (cfg : JobFilterConfig) (j : JobListing) :
    check_experience_requirements cfg ((check_experience_requirements cfg j).2) =
      check_experience_requirements cfg j := by
  by_cases h1 : (j.experience_years_min.isNone && j.experience_years_max.isNone) = true
  · have hc : check_experience_requirements cfg j =
        (cfg.include_unknown_experience, j) := by
      unfold check_experience_requirements; rw [if_pos h1]
    rw [hc]
    unfold check_experience_requirements
    rw [if_pos h1]
  · by_cases h2 : (cfg.exclude_experience_keywords.any
        (fun kw => pyContains (experience_gate_text j) kw)) = true
    · have hc : check_experience_requirements cfg j = (false, j) := by
        unfold check_experience_requirements; rw [if_neg h1, if_pos h2]
      rw [hc]
      unfold check_experience_requirements
      rw [if_neg h1, if_pos h2]
    · have hc : check_experience_requirements cfg j =
          (decide (expScoreOf cfg j > 0) ||
            (j.experience_years_min.isNone && j.experience_years_max.isNone &&
              cfg.include_unknown_experience),
           setScore j (expScoreOf cfg j)) := by
        unfold check_experience_requirements; rw [if_neg h1, if_neg h2]
      rw [hc]
      unfold check_experience_requirements
      simp only [setScore_experience_years_min, setScore_experience_years_max,
        experience_gate_text_setScore, expScoreOf_setScore, setScore_setScore]
      rw [if_neg h1, if_neg h2]

theorem preferred_skill_score_congr (cfg : JobFilterConfig) (j k : JobListing)
    (ht : j.title = k.title) (hd : j.description = k.description) :
    preferred_skill_score cfg j = preferred_skill_score cfg k := by
  unfold preferred_skill_score
  rw [ht, hd]

theorem matches_snd (cfg : JobFilterConfig) (j : JobListing) :
    (matches_requirements cfg j).2 = (check_experience_requirements cfg j).2 := by
  simp only [matches_requirements]
  split
  · rfl
  · rfl

theorem matches_requirements_idem (cfg : JobFilterConfig) (j : JobListing) :
    matches_requirements cfg ((matches_requirements cfg j).2) =
      matches_requirements cfg j := by
  rw [matches_snd]
  have hT := check_snd_title cfg j
  have hD := check_snd_description cfg j
  have hP : preferred_skill_score cfg ((check_experience_requirements cfg j).2) =
      preferred_skill_score cfg j :=
    preferred_skill_score_congr cfg _ j hT hD
  unfold matches_requirements
  rw [check_idem, hP, hT]

/-! Helper lemmas: per-posting step and pipeline. -/

theorem processJob_idem (cfg : JobFilterConfig) (now : Int) (j : JobListing) :
    processJob cfg now ((processJob cfg now j).2) = processJob cfg now j := by
  unfold processJob
  have h1 : enrichJob cfg now
      ((matches_requirements cfg (enrichJob cfg now j)).2) =
      (matches_requirements cfg (enrichJob cfg now j)).2 := by
    rw [matches_snd]
    rcases check_snd_eq_or cfg (enrichJob cfg now j) with h | h
    · rw [h, enrichJob_idem]
    · rw [h, enrichJob_setScore_comm, enrichJob_idem]
  rw [h1, matches_requirements_idem]

theorem processJob_snd_posting_time (cfg : JobFilterConfig) (now : Int)
    (j : JobListing) :
    ((processJob cfg now j).2).posting_time = parse_posting_time j.posted now := by
  unfold processJob
  rw [matches_snd, check_snd_posting_time, enrichJob_posting_time]

theorem parse_posting_time_isSome (p : String) (now : Int) :
    (parse_posting_time p now).isSome = true := by
  simp only [parse_posting_time]
  repeat' split
  all_goals rfl

/-! Helper lemmas: the stable sort. -/

theorem mem_insertSorted {α : Type} (le : α → α → Bool) (x a : α) (l : List α) :
    a ∈ insertSorted le x l ↔ a = x ∨ a ∈ l := by
  induction l with
  | nil => simp [insertSorted]
  | cons y ys ih =>
    unfold insertSorted
    split
    · simp only [List.mem_cons, ih]
      tauto
    · simp only [List.mem_cons]

theorem pairwise_insertSorted {α : Type} (le : α → α → Bool)
    (htot : ∀ a b, le a b = true ∨ le b a = true)
    (htrans : ∀ a b c, le a b = true → le b c = true → le a c = true)
    (x : α) (l : List α) (h : l.Pairwise (fun a b => le a b = true)) :
    (insertSorted le x l).Pairwise (fun a b => le a b = true) := by
  induction l with
  | nil => simp [insertSorted]
  | cons y ys ih =>
    rw [List.pairwise_cons] at h
    unfold insertSorted
    split
    · rename_i hle
      rw [List.pairwise_cons]
      constructor
      · intro z hz
        rcases (mem_insertSorted le x z ys).1 hz with rfl | hzys
        · exact hle
        · exact h.1 z hzys
      · exact ih h.2
    · rename_i hle
      have hxy : le x y = true := by
        rcases htot x y with hx | hy
        · exact hx
        · exact absurd hy (by simpa using hle)
      rw [List.pairwise_cons]
      constructor
      · intro z hz
        rcases List.mem_cons.1 hz with rfl | hzys
        · exact hxy
        · exact htrans x y z hxy (h.1 z hzys)
      · rw [List.pairwise_cons]
        exact h

theorem mem_foldl_insertSorted {α : Type} (le : α → α → Bool) (a : α) :
    ∀ (l acc : List α),
      (a ∈ l.foldl (fun acc x => insertSorted le x acc) acc ↔ a ∈ acc ∨ a ∈ l)
  | [], acc => by simp
  | x :: xs, acc => by
    rw [List.foldl_cons, mem_foldl_insertSorted le a xs,
      mem_insertSorted le x a acc]
    simp only [List.mem_cons]
    tauto

theorem mem_stableSort {α : Type} (le : α → α → Bool) (a : α) (l : List α) :
    a ∈ stableSort le l ↔ a ∈ l := by
  unfold stableSort
  rw [mem_foldl_insertSorted]
  simp

theorem pairwise_foldl_insertSorted {α : Type} (le : α → α → Bool)
    (htot : ∀ a b, le a b = true ∨ le b a = true)
    (htrans : ∀ a b c, le a b = true → le b c = true → le a c = true) :
    ∀ (l acc : List α), acc.Pairwise (fun a b => le a b = true) →
      (l.foldl (fun acc x => insertSorted le x acc) acc).Pairwise
        (fun a b => le a b = true)
  | [], acc, h => h
  | x :: xs, acc, h => by
    rw [List.foldl_cons]
    exact pairwise_foldl_insertSorted le htot htrans xs _
      (pairwise_insertSorted le htot htrans x acc h)

theorem pairwise_stableSort {α : Type} (le : α → α → Bool)
    (htot : ∀ a b, le a b = true ∨ le b a = true)
    (htrans : ∀ a b c, le a b = true → le b c = true → le a c = true)
    (l : List α) :
    (stableSort le l).Pairwise (fun a b => le a b = true) :=
  pairwise_foldl_insertSorted le htot htrans l [] (by simp)

theorem keyLe_tot (a b : Int × Int × Int) :
    keyLe a b = true ∨ keyLe b a = true := by
  unfold keyLe
  simp only [Bool.or_eq_true, Bool.and_eq_true, decide_eq_true_eq]
  omega

theorem keyLe_trans (a b c : Int × Int × Int)
    (h1 : keyLe a b = true) (h2 : keyLe b c = true) : keyLe a c = true := by
  unfold keyLe at h1 h2 ⊢
  simp only [Bool.or_eq_true, Bool.and_eq_true, decide_eq_true_eq] at h1 h2 ⊢
  omega

theorem jobLe_tot (a b : JobListing) : jobLe a b = true ∨ jobLe b a = true :=
  keyLe_tot (sortKey a) (sortKey b)

theorem jobLe_trans (a b c : JobListing)
    (h1 : jobLe a b = true) (h2 : jobLe b c = true) : jobLe a c = true :=
  keyLe_trans (sortKey a) (sortKey b) (sortKey c) h1 h2

theorem jobLe_score (a b : JobListing) (h : jobLe a b = true) :
    b.experience_match_score ≤ a.experience_match_score := by
  unfold jobLe keyLe sortKey at h
  simp only [Bool.or_eq_true, Bool.and_eq_true, decide_eq_true_eq] at h
  omega

/-! Helper lemmas: deduplication. -/

theorem dedupeAux_filter (k : String) :
    ∀ (l : List JobListing) (seen : List String),
      (dedupeAux seen l).filter (fun j => j.link == k) =
        if seen.contains k then []
        else (l.filter (fun j => j.link == k)).take 1
  | [], seen => by
    simp [dedupeAux]
  | j :: rest, seen => by
    unfold dedupeAux
    by_cases hjk : j.link = k
    · subst hjk
      by_cases hs : seen.contains j.link = true
      · rw [if_pos hs, dedupeAux_filter j.link rest seen, if_pos hs, if_pos hs]
      · rw [if_neg hs, if_neg (by simpa using hs)]
        rw [List.filter_cons, List.filter_cons,
          dedupeAux_filter j.link rest (j.link :: seen)]
        simp
    · have hbeq : (j.link == k) = false := by simpa using hjk
      by_cases hs : seen.contains k = true
      · have hs' : k ∈ seen := by simpa using hs
        rw [if_pos hs]
        by_cases hs2 : seen.contains j.link = true
        · rw [if_pos hs2, dedupeAux_filter k rest seen, if_pos hs]
        · rw [if_neg hs2, List.filter_cons, hbeq]
          simp only [Bool.false_eq_true, if_false]
          rw [dedupeAux_filter k rest (j.link :: seen), if_pos (by simp [hs'])]
      · have hs' : k ∉ seen := by simpa using hs
        rw [if_neg hs, List.filter_cons, hbeq]
        simp only [Bool.false_eq_true, if_false]
        by_cases hs2 : seen.contains j.link = true
        · rw [if_pos hs2, dedupeAux_filter k rest seen, if_neg hs]
        · rw [if_neg hs2, List.filter_cons, hbeq]
          simp only [Bool.false_eq_true, if_false]
          rw [dedupeAux_filter k rest (j.link :: seen),
            if_neg (by simp [hs', Ne.symm hjk])]

theorem dedupeAux_sublist :
    ∀ (l : List JobListing) (seen : List String), (dedupeAux seen l).Sublist l
  | [], _ => List.Sublist.refl []
  | j :: rest, seen => by
    unfold dedupeAux
    split
    · exact (dedupeAux_sublist rest seen).cons j
    · exact (dedupeAux_sublist rest (j.link :: seen)).cons₂ j

/-! Helper lemmas: the exception-explicit embedding never errors. -/

theorem match_scoreE_eq (iu : Bool) (jm jM : Option Int) (fm fM : Int) :
    calculate_experience_match_scoreE iu jm jM fm fM =
      .ok (calculate_experience_match_score iu jm jM fm fM) := by
  simp only [calculate_experience_match_scoreE, calculate_experience_match_score,
    pyDivE]
  split
  · rfl
  · split
    · rename_i hov
      rw [if_neg]
      simp only [beq_iff_eq]
      omega
    · split
      · rfl
      · rfl

theorem checkE_eq (cfg : JobFilterConfig) (job : JobListing) :
    check_experience_requirementsE cfg job =
      .ok (check_experience_requirements cfg job) := by
  unfold check_experience_requirementsE check_experience_requirements
  split
  · rfl
  · split
    · rfl
    · rw [match_scoreE_eq]
      rfl

theorem matchesE_eq (cfg : JobFilterConfig) (job : JobListing) :
    matches_requirementsE cfg job = .ok (matches_requirements cfg job) := by
  simp only [matches_requirementsE, matches_requirements, checkE_eq]
  split
  · rfl
  · rfl

theorem parse_posting_timeE_ok (ov : Int → Bool) (p : String) (now : Int) :
    ∃ t, parse_posting_timeE ov p now = .ok t := by
  simp only [parse_posting_timeE]
  repeat' split
  all_goals exact ⟨_, rfl⟩

theorem processJobE_ok (ov : Int → Bool) (cfg : JobFilterConfig) (now : Int)
    (job : JobListing) : ∃ r, processJobE ov cfg now job = .ok r := by
  unfold processJobE
  obtain ⟨t, ht⟩ := parse_posting_timeE_ok ov job.posted now
  rw [ht]
  exact ⟨_, matchesE_eq cfg _⟩

theorem mapME_ok {α β : Type} (f : α → Except String β)
    (hf : ∀ a, ∃ b, f a = .ok b) :
    ∀ l : List α, ∃ l', l.mapM f = .ok l'
  | [] => ⟨[], rfl⟩
  | a :: l => by
    obtain ⟨b, hb⟩ := hf a
    obtain ⟨l', hl⟩ := mapME_ok f hf l
    refine ⟨b :: l', ?_⟩
    rw [List.mapM_cons, hb, hl]
    rfl

/-! Arithmetic helper for the score bounds. -/

theorem ediv_mul_ten_bounds (a b : Int) (h1 : 0 < b) (h2 : 0 ≤ a) (h3 : a ≤ b) :
    0 ≤ a * 10 / b ∧ a * 10 / b ≤ 10 := by
  constructor
  · exact Int.ediv_nonneg (by omega) (by omega)
  · calc a * 10 / b ≤ b * 10 / b := Int.ediv_le_ediv h1 (by omega)
      _ = 10 := Int.mul_ediv_cancel_left 10 (by omega)

/-! The claims. -/

/-- C1: the claim states that a text containing "N to M years (of) experience"
(matching no higher-priority pattern) yields the range triple
`(f"{N}-{M} years", N, M)`, the "to" wording being treated like the
hyphenated one.  The code instead returns `("5+ years", 5, None)` on
"2 to 5 years of experience": the bare "N years (of) experience" pattern is
scanned before the "N to M" pattern, so the dedicated "N to M" regex (whose
own comment announces it is for "2 to 5 years") can never fire.  This theorem
evaluates the embedded extractor at that failing input. -/
theorem c1_to_wording_not_range :
    parse_experience_requirements "2 to 5 years of experience" =
      ("5+ years", some 5, none) := by
  rfl

/-- C2 (amended): deduplication is applied only inside the web-search scraper,
across its queries, not across all sources' combined output.  Within that
stage, for every link value only the first-seen posting with that link
survives and survivors keep first-seen order (`Sublist`); `main` then
concatenates the Indeed and LinkedIn lists with the deduplicated web list
without any further duplicate removal. -/
theorem c2_dedup_web_stage_only (indeed_jobs linkedin_jobs web_raw : List JobListing)
    (k : String) :
    (dedupe_jobs web_raw).filter (fun j => j.link == k) =
      (web_raw.filter (fun j => j.link == k)).take 1 ∧
    (dedupe_jobs web_raw).Sublist web_raw ∧
    main_gather indeed_jobs linkedin_jobs web_raw =
      indeed_jobs ++ linkedin_jobs ++ dedupe_jobs web_raw := by
  refine ⟨?_, dedupeAux_sublist web_raw [], rfl⟩
  rw [dedupe_jobs, dedupeAux_filter k web_raw []]
  simp

/-- C2 is false as stated: the batch `main` assembles before enrichment
contains two postings with the identical non-empty link
"https://jobs.example.com/a", one from Indeed and one from LinkedIn — both
survive, because no deduplication runs across the combined sources. -/
theorem c2_counterexample :
    (main_gather [jobDupIndeed] [jobDupLinkedIn] []).filter
        (fun j => j.link == "https://jobs.example.com/a") =
      [jobDupIndeed, jobDupLinkedIn] := by
  rfl

/-- C3: for all nullable job bounds, arbitrary integer filter bounds and
either value of the include-unknown flag, the experience match score lies in
the inclusive range 0..10. -/
theorem c3_match_score_bounds (include_unknown : Bool)
    (job_min job_max : Option Int) (filter_min filter_max : Int) :
    0 ≤ calculate_experience_match_score include_unknown job_min job_max
        filter_min filter_max ∧
    calculate_experience_match_score include_unknown job_min job_max
        filter_min filter_max ≤ 10 := by
  simp only [calculate_experience_match_score]
  split
  · split
    · omega
    · omega
  · split
    · rename_i hov
      exact ediv_mul_ten_bounds _ _ (by omega) (by omega) (by omega)
    · split
      · omega
      · omega

/-- C5 (amended): a posting with an empty link is deduplicated exactly like
any other posting — the key is the literal link string, including the empty
one — so among all empty-link postings of a batch only the first-seen
survives the Deduplicator. -/
theorem c5_empty_link_deduped (l : List JobListing) :
    (dedupe_jobs l).filter (fun j => j.link == "") =
      (l.filter (fun j => j.link == "")).take 1 := by
  rw [dedupe_jobs, dedupeAux_filter "" l []]
  simp

/-- C5 is false as stated: `jobEmptyLinkA` and `jobEmptyLinkB` both carry the
empty link, yet only the first survives the Deduplicator — empty-link
postings are not all kept. -/
theorem c5_counterexample :
    dedupe_jobs [jobEmptyLinkA, jobEmptyLinkB] = [jobEmptyLinkA] := by
  rfl

/-- C4: the title fallback overrides only the skill gate, never the experience
gate.  First conjunct: a posting failing the experience gate is rejected
regardless of its title.  Second conjunct: a posting passing the experience
gate but failing the skill threshold is retained whenever its lower-cased
title contains one of "ml", "machine learning", "ai". -/
theorem c4_fallback_only_skill_gate (cfg : JobFilterConfig) (job : JobListing) :
    ((check_experience_requirements cfg job).1 = false →
      (matches_requirements cfg job).1 = false) ∧
    ((check_experience_requirements cfg job).1 = true →
      (preferred_skill_score cfg job : Int) < cfg.min_skill_score →
      title_ml_keywords.any (fun kw => pyContains (pyLower job.title) kw) = true →
      (matches_requirements cfg job).1 = true) := by
  constructor
  · intro h
    simp [matches_requirements, h]
  · intro h1 h2 h3
    simp [matches_requirements, h1, h3, decide_eq_true h2]

/-- C4 witness: with `cfgZeroSkill` (unknown experience excluded) the
unknown-experience posting titled "ML Engineer" fails the experience gate and
is rejected despite the "ml" keyword in its title; with `cfgDefault` the same
posting passes the gate, fails the skill threshold, and is retained through
the title fallback. -/
theorem c4_witness :
    (matches_requirements cfgZeroSkill jobUnknownExp).1 = false ∧
    (matches_requirements cfgDefault jobUnknownExp).1 = true :=
  ⟨(c4_fallback_only_skill_gate cfgZeroSkill jobUnknownExp).1 (by decide),
   (c4_fallback_only_skill_gate cfgDefault jobUnknownExp).2 (by decide)
     (by decide) (by decide)⟩

/-- C6: no core operation raises.  In the exception-explicit embedding —
where the division of the match scorer and the timedelta overflow of the time
normalizer (behind its bare `except`) are threaded through `Except`, for an
arbitrary overflow oracle `ov` — relative-time parsing, experience match
scoring and the whole composite filter/rank pipeline return a value on every
input; skill scoring and experience extraction are embedded as total
functions because their only fallible steps, `int` on `(\d+)` captures, are
applied to non-empty digit strings. -/
theorem c6_core_never_raises (ov : Int → Bool) (cfg : JobFilterConfig)
    (now : Int) (posted : String) (iu : Bool) (jm jM : Option Int)
    (fm fM : Int) (jobs : List JobListing) :
    (∃ t, parse_posting_timeE ov posted now = .ok t) ∧
    (∃ r, calculate_experience_match_scoreE iu jm jM fm fM = .ok r) ∧
    (∃ out, filter_and_score_jobsE ov cfg now jobs = .ok out) := by
  refine ⟨parse_posting_timeE_ok ov posted now,
    ⟨_, match_scoreE_eq iu jm jM fm fM⟩, ?_⟩
  obtain ⟨l', hl⟩ := mapME_ok (processJobE ov cfg now)
    (processJobE_ok ov cfg now) jobs
  exact ⟨_, by unfold filter_and_score_jobsE; rw [hl]⟩

/-- C7 (amended): with `min_skill_score = 0` the skill gate admits every
posting regardless of `skills_found` — the filter verdict reduces to the
experience gate's verdict — but a posting can still be rejected by the
experience gate, so not every posting is admitted. -/
theorem c7_zero_threshold_skill_gate_vacuous (cfg : JobFilterConfig)
    (job : JobListing) (h : cfg.min_skill_score = 0) :
    (matches_requirements cfg job).1 =
      (check_experience_requirements cfg job).1 := by
  simp only [matches_requirements]
  split
  · rename_i hc
    have hc' : (check_experience_requirements cfg job).1 = false := by
      simpa using hc
    simp [hc']
  · rename_i hc
    have hc' : (check_experience_requirements cfg job).1 = true := by
      simpa using hc
    have hge : ¬((preferred_skill_score cfg job : Int) < cfg.min_skill_score) := by
      rw [h]
      omega
    simp [hge, hc']

/-- C7 is false as stated: under `cfgZeroSkill`, whose `min_skill_score` is
zero, the unknown-experience posting is rejected by the experience gate
(`include_unknown_experience` is false there), so a zero threshold does not
admit every posting. -/
theorem c7_counterexample :
    (matches_requirements cfgZeroSkill jobUnknownExp).1 = false := by
  decide

/-- C7 witness: the amended equivalence evaluated at the zero-threshold
configuration and a concrete posting. -/
theorem c7_witness :
    (matches_requirements cfgZeroSkill jobDupIndeed).1 =
      (check_experience_requirements cfgZeroSkill jobDupIndeed).1 :=
  c7_zero_threshold_skill_gate_vacuous cfgZeroSkill jobDupIndeed rfl

/-- C8: the pipeline has no hidden state: its result is a function of the
batch, the instant `now` and the configuration only.  Because the Python
function enriches the given records in place, "running the pipeline twice on
the same input" feeds the mutated batch back in; the theorem states that this
second invocation returns both the identical filtered list and the identical
enriched batch. -/
theorem c8_pipeline_idempotent (cfg : JobFilterConfig) (now : Int)
    (jobs : List JobListing) :
    filter_and_score_jobs cfg now ((filter_and_score_jobs cfg now jobs).2) =
      filter_and_score_jobs cfg now jobs := by
  have h2 : (filter_and_score_jobs cfg now jobs).2 =
      jobs.map (fun j => (processJob cfg now j).2) := by
    simp only [filter_and_score_jobs, List.map_map]
    rfl
  rw [h2]
  have hmap : (jobs.map (fun j => (processJob cfg now j).2)).map
        (processJob cfg now) = jobs.map (processJob cfg now) := by
    rw [List.map_map]
    exact List.map_congr_left (fun a _ => processJob_idem cfg now a)
  simp only [filter_and_score_jobs]
  rw [hmap]

/-- Helper for C9: a posting that leaves the per-posting step with both
experience bounds still null kept its incoming match score (the gate returned
before the scorer ran). -/
theorem process_snd_unknown (cfg : JobFilterConfig) (now : Int) (j0 : JobListing)
    (hmin : ((processJob cfg now j0).2).experience_years_min = none)
    (hmax : ((processJob cfg now j0).2).experience_years_max = none) :
    ((processJob cfg now j0).2).experience_match_score =
      j0.experience_match_score := by
  unfold processJob at *
  rw [matches_snd] at hmin hmax ⊢
  rw [check_snd_experience_years_min] at hmin
  rw [check_snd_experience_years_max] at hmax
  rw [check_unknown cfg _ hmin hmax]
  simp

/-- C9: a retained posting whose experience bounds are both null keeps its
dataclass-default match score 0 — the experience gate returns before invoking
the matcher, so the neutral 5 is never stored — and the output is ordered by
non-increasing experience match score, hence every unknown-experience posting
sorts after every posting with a positive score. -/
theorem c9_unknown_scores_zero_and_sort_last (cfg : JobFilterConfig)
    (now : Int) (jobs : List JobListing)
    (h : ∀ j ∈ jobs, j.experience_match_score = 0) :
    unknownScoreZero (filter_and_score_jobs cfg now jobs).1 ∧
    scoreNonincreasing (filter_and_score_jobs cfg now jobs).1 := by
  constructor
  · unfold unknownScoreZero
    intro j hj hmin hmax
    simp only [filter_and_score_jobs] at hj
    rw [mem_stableSort] at hj
    obtain ⟨p, hp, rfl⟩ := List.mem_map.1 hj
    obtain ⟨hpmem, hpfst⟩ := List.mem_filter.1 hp
    obtain ⟨j0, hj0, rfl⟩ := List.mem_map.1 hpmem
    rw [process_snd_unknown cfg now j0 hmin hmax]
    exact h j0 hj0
  · unfold scoreNonincreasing
    simp only [filter_and_score_jobs]
    exact (pairwise_stableSort jobLe jobLe_tot jobLe_trans _).imp
      (fun hab => jobLe_score _ _ hab)

/-- C9 witness: a two-posting batch of raw records (scores at the dataclass
default 0), one unknown-experience and one "senior"-levelled, instantiates
the hypothesis and the conclusion. -/
theorem c9_witness :
    unknownScoreZero
      (filter_and_score_jobs cfgDefault 0 [jobUnknownExp, jobSeniorTitle]).1 ∧
    scoreNonincreasing
      (filter_and_score_jobs cfgDefault 0 [jobUnknownExp, jobSeniorTitle]).1 :=
  c9_unknown_scores_zero_and_sort_last cfgDefault 0
    [jobUnknownExp, jobSeniorTitle] (by decide)

/-- C10: relative-time parsing never returns null — every input string maps
to an instant — so after enrichment every posting of the batch, and hence
every posting of the filtered output, carries a posting time, making the
`datetime.min` fallback of the sort key unreachable in the pipeline. -/
theorem c10_posting_time_always_set (cfg : JobFilterConfig) (now : Int)
    (jobs : List JobListing) (s : String) :
    (parse_posting_time s now).isSome = true ∧
    allTimesSet (filter_and_score_jobs cfg now jobs).2 ∧
    allTimesSet (filter_and_score_jobs cfg now jobs).1 := by
  refine ⟨parse_posting_time_isSome s now, ?_, ?_⟩
  · unfold allTimesSet
    intro j hj
    simp only [filter_and_score_jobs] at hj
    obtain ⟨p, hp, rfl⟩ := List.mem_map.1 hj
    obtain ⟨j0, hj0, rfl⟩ := List.mem_map.1 hp
    rw [processJob_snd_posting_time]
    exact parse_posting_time_isSome j0.posted now
  · unfold allTimesSet
    intro j hj
    simp only [filter_and_score_jobs] at hj
    rw [mem_stableSort] at hj
    obtain ⟨p, hp, rfl⟩ := List.mem_map.1 hj
    obtain ⟨hpmem, hpfst⟩ := List.mem_filter.1 hp
    obtain ⟨j0, hj0, rfl⟩ := List.mem_map.1 hpmem
    rw [processJob_snd_posting_time]
    exact parse_posting_time_isSome j0.posted now
